import Mathlib

/-!
Verification of the battery dispatch simulator and cost model of the
smart-energy-dashboard repository.

The embedding translates `src/modules/battery/domain.py` and
`src/modules/battery/service.py` into Lean. Python floats are idealised as
rationals (`ℚ`); Python's `round(x, 6)` (round-half-to-even to six decimal
places) is embedded as `round6`. Pandas DataFrames are embedded as lists:
the input frame as a list of `(production_kwh, consumption_kwh)` pairs, the
output frame as a list of `StepOut` records carrying the copied input
columns plus the five columns `simulate` appends.
-/

/-- Battery configuration, mirroring the frozen dataclass `BatteryParams`
in `src/modules/battery/domain.py` (fields and their meaning unchanged;
the Python defaults are 10.0, 0.10, 0.95, 0.92, 0.92, 5.0, 5.0, None). -/
structure BatteryParams where
  capacity_kwh : ℚ
  soc_min : ℚ
  soc_max : ℚ
  eta_c : ℚ
  eta_d : ℚ
  p_charge_max_kw : ℚ
  p_discharge_max_kw : ℚ
  initial_soc_kwh : Option ℚ
deriving DecidableEq

/-- `BatteryParams.soc_min_kwh`: `capacity_kwh * soc_min`. -/
def BatteryParams.soc_min_kwh (p : BatteryParams) : ℚ :=
  p.capacity_kwh * p.soc_min

/-- `BatteryParams.soc_max_kwh`: `capacity_kwh * soc_max`. -/
def BatteryParams.soc_max_kwh (p : BatteryParams) : ℚ :=
  p.capacity_kwh * p.soc_max

/-- `BatteryParams.clamp_soc_kwh`:
`max(soc_min_kwh, min(soc_max_kwh, soc_kwh))`. -/
def BatteryParams.clamp_soc_kwh (p : BatteryParams) (soc_kwh : ℚ) : ℚ :=
  max p.soc_min_kwh (min p.soc_max_kwh soc_kwh)

/-- `BatteryParams.initial_soc`: `capacity_kwh * 0.50` when
`initial_soc_kwh is None` (note: the source does NOT clamp this default),
otherwise `clamp_soc_kwh(initial_soc_kwh)`. -/
def BatteryParams.initial_soc (p : BatteryParams) : ℚ :=
  match p.initial_soc_kwh with
  | none => p.capacity_kwh * (1 / 2)
  | some s => p.clamp_soc_kwh s

/-- Round-half-to-even to the nearest integer, the behaviour of Python's
builtin `round` (idealised over exact rationals). -/
def rhe (x : ℚ) : ℤ :=
  if x - ⌊x⌋ < 1 / 2 then ⌊x⌋
  else if 1 / 2 < x - ⌊x⌋ then ⌊x⌋ + 1
  else if ⌊x⌋ % 2 = 0 then ⌊x⌋ else ⌊x⌋ + 1

/-- Python's `round(x, 6)`: round half-to-even to six decimal places. -/
def round6 (x : ℚ) : ℚ :=
  ((rhe (x * 1000000) : ℤ) : ℚ) / 1000000

/-- Exact (pre-rounding) per-step flows, plus the end-of-step SoC. -/
structure StepFlows where
  soc_kwh : ℚ
  charge_kwh : ℚ
  discharge_kwh : ℚ
  grid_import_kwh : ℚ
  grid_export_kwh : ℚ
deriving DecidableEq

/-- Source variable `charge_stored_kwh` of the surplus branch:
`min(room_kwh, charge_gridside_kwh * eta_c)` where
`room_kwh = max(0, soc_max_kwh - soc)` and
`charge_gridside_kwh = min(surplus, p_charge_max_kw)`. -/
def chargeStored (p : BatteryParams) (soc surplus : ℚ) : ℚ :=
  min (max 0 (p.soc_max_kwh - soc)) (min surplus p.p_charge_max_kw * p.eta_c)

/-- Source variable `charge` of the surplus branch:
`charge_stored_kwh / eta_c if eta_c > 0 else 0.0`. -/
def chargeDrawn (p : BatteryParams) (soc surplus : ℚ) : ℚ :=
  if 0 < p.eta_c then chargeStored p soc surplus / p.eta_c else 0

/-- Source variable `discharge` of the deficit branch:
`min(need_kwh, deliverable_kwh)` where
`deliverable_kwh = discharge_stored_kwh * eta_d` and
`discharge_stored_kwh = min(max(0, soc - soc_min_kwh), p_discharge_max_kw)`. -/
def dischargeDelivered (p : BatteryParams) (soc need : ℚ) : ℚ :=
  min need (min (max 0 (soc - p.soc_min_kwh)) p.p_discharge_max_kw * p.eta_d)

/-- Source variable `spent_stored_kwh` of the deficit branch:
`discharge / eta_d if eta_d > 0 else 0.0`. -/
def spentStored (p : BatteryParams) (soc need : ℚ) : ℚ :=
  if 0 < p.eta_d then dischargeDelivered p soc need / p.eta_d else 0

/-- One loop iteration of `simulate` in `src/modules/battery/service.py`
(lines 136-169): branch on `surplus >= 0`, cap charge by headroom, power
limit and charge efficiency (discharge dually), guard division by zero
efficiency, clamp the SoC. Flow values here are the exact computed values,
before the `round(_, 6)` applied at emission. -/
def simStep (p : BatteryParams) (soc pv load : ℚ) : StepFlows :=
  if 0 ≤ pv - load then
    { soc_kwh := p.clamp_soc_kwh (soc + chargeStored p soc (pv - load))
    , charge_kwh := chargeDrawn p soc (pv - load)
    , discharge_kwh := 0
    , grid_import_kwh := 0
    , grid_export_kwh := max 0 ((pv - load) - chargeDrawn p soc (pv - load)) }
  else
    { soc_kwh := p.clamp_soc_kwh (soc - spentStored p soc (load - pv))
    , charge_kwh := 0
    , discharge_kwh := dischargeDelivered p soc (load - pv)
    , grid_import_kwh := max 0 ((load - pv) - dischargeDelivered p soc (load - pv))
    , grid_export_kwh := 0 }

/-- One output row of `simulate`: the copied input columns plus the five
appended columns. -/
structure StepOut where
  production_kwh : ℚ
  consumption_kwh : ℚ
  soc_kwh : ℚ
  charge_kwh : ℚ
  discharge_kwh : ℚ
  grid_import_kwh : ℚ
  grid_export_kwh : ℚ
deriving DecidableEq, Inhabited

/-- Emission of one row as the source appends it: the four flow columns are
`round(_, 6)`-ed, `soc_kwh` is appended unrounded (only clamped). -/
def mkRow (pv load : ℚ) (s : StepFlows) : StepOut :=
  { production_kwh := pv
  , consumption_kwh := load
  , soc_kwh := s.soc_kwh
  , charge_kwh := round6 s.charge_kwh
  , discharge_kwh := round6 s.discharge_kwh
  , grid_import_kwh := round6 s.grid_import_kwh
  , grid_export_kwh := round6 s.grid_export_kwh }

/-- The same row with the exact (unrounded) flow values. -/
def mkRowExact (pv load : ℚ) (s : StepFlows) : StepOut :=
  { production_kwh := pv
  , consumption_kwh := load
  , soc_kwh := s.soc_kwh
  , charge_kwh := s.charge_kwh
  , discharge_kwh := s.discharge_kwh
  , grid_import_kwh := s.grid_import_kwh
  , grid_export_kwh := s.grid_export_kwh }

/-- The simulation loop of `simulate`, threading the single SoC scalar. -/
def simGo (p : BatteryParams) : ℚ → List (ℚ × ℚ) → List StepOut
  | _, [] => []
  | soc, (pv, load) :: rest =>
    mkRow pv load (simStep p soc pv load) ::
      simGo p (simStep p soc pv load).soc_kwh rest

/-- The same loop without the emission rounding. -/
def simGoExact (p : BatteryParams) : ℚ → List (ℚ × ℚ) → List StepOut
  | _, [] => []
  | soc, (pv, load) :: rest =>
    mkRowExact pv load (simStep p soc pv load) ::
      simGoExact p (simStep p soc pv load).soc_kwh rest

/-- `simulate(params, timeseries)` of `src/modules/battery/service.py`,
on a typed input frame (both required columns present by construction):
starts from `params.initial_soc()` and folds `simStep` over the rows. -/
def simulate (p : BatteryParams) (ts : List (ℚ × ℚ)) : List StepOut :=
  simGo p p.initial_soc ts

/-- Variant of `simulate` emitting exact (unrounded) flow values; used to
state what the emission rounding does. -/
def simulateExact (p : BatteryParams) (ts : List (ℚ × ℚ)) : List StepOut :=
  simGoExact p p.initial_soc ts

/-- Rounding of an already-built exact row, as the source's emission does. -/
def emitRow (r : StepOut) : StepOut :=
  { r with
    charge_kwh := round6 r.charge_kwh
  , discharge_kwh := round6 r.discharge_kwh
  , grid_import_kwh := round6 r.grid_import_kwh
  , grid_export_kwh := round6 r.grid_export_kwh }

/-- DataFrame column names relevant to `simulate`'s missing-column check. -/
inductive Col
  | datetime
  | production_kwh
  | consumption_kwh
deriving DecidableEq

/-- The check `required_cols - set(df.columns)` is empty, i.e. both
`production_kwh` and `consumption_kwh` are present. -/
def hasRequiredCols (cols : List Col) : Bool :=
  cols.contains Col.production_kwh && cols.contains Col.consumption_kwh

/-- `simulate` including its only fail-fast path: the `ValueError` raised
when required columns are missing (service.py lines 112-117). It performs
no validation of the configuration or of the series values. -/
def simulateDF (p : BatteryParams) (cols : List Col) (ts : List (ℚ × ℚ)) :
    Except String (List StepOut) :=
  if hasRequiredCols cols then Except.ok (simulate p ts)
  else Except.error ("simulate() missing columns")

/-- Export compensation policy of `compute_costs`. -/
inductive ExportMode
  | market
  | feed_in
deriving DecidableEq

/-- Export revenue of one row in `compute_costs`:
`grid_export_kwh * (price_eur_mwh / 1000)` in market mode, else
`grid_export_kwh * feed_in_tariff_eur_per_kwh`. -/
def exportRevenue (mode : ExportMode) (tariff price gexp : ℚ) : ℚ :=
  match mode with
  | ExportMode.market => gexp * (price / 1000)
  | ExportMode.feed_in => gexp * tariff

/-- One row of `compute_costs` output. -/
structure CostRow where
  import_cost_eur : ℚ
  export_revenue_eur : ℚ
  net_cost_eur : ℚ
deriving DecidableEq

/-- `compute_costs(sim, price_eur_mwh, export_mode, feed_in_tariff)` of
`src/modules/battery/service.py`: joins the simulation frame with the
aligned price series (embedded as positional zip) and prices the
emitted import/export columns. -/
def compute_costs (sim : List StepOut) (prices : List ℚ)
    (mode : ExportMode) (tariff : ℚ) : List CostRow :=
  (sim.zip prices).map fun x =>
    { import_cost_eur := x.1.grid_import_kwh * (x.2 / 1000)
    , export_revenue_eur := exportRevenue mode tariff x.2 x.1.grid_export_kwh
    , net_cost_eur := x.1.grid_import_kwh * (x.2 / 1000) -
        exportRevenue mode tariff x.2 x.1.grid_export_kwh }

/-- Total net cost of a priced simulation frame (sum of `net_cost_eur`). -/
def totalNetCost (sim : List StepOut) (prices : List ℚ)
    (mode : ExportMode) (tariff : ℚ) : ℚ :=
  ((compute_costs sim prices mode tariff).map CostRow.net_cost_eur).sum

/-- Baseline (no-battery) flows, written from the spec's words: per step,
`grid_import = max(0, consumption - production)` and
`grid_export = max(0, production - consumption)`. Each pair is
(import, export). -/
def specBaselineFlows (ts : List (ℚ × ℚ)) : List (ℚ × ℚ) :=
  ts.map fun r => (max 0 (r.2 - r.1), max 0 (r.1 - r.2))

/-- Total net cost of a raw (import, export) flow list under the same
pricing formulas as `compute_costs`. -/
def flowsNetCost (flows : List (ℚ × ℚ)) (prices : List ℚ)
    (mode : ExportMode) (tariff : ℚ) : ℚ :=
  ((flows.zip prices).map fun x =>
    x.1.1 * (x.2 / 1000) - exportRevenue mode tariff x.2 x.1.2).sum

/-- The preconditions the spec states for a valid configuration:
`0 ≤ soc_min ≤ soc_max ≤ 1`, efficiencies in `(0, 1]`, capacity and power
limits nonnegative. -/
@[reducible] def Valid (p : BatteryParams) : Prop :=
  0 ≤ p.soc_min ∧ p.soc_min ≤ p.soc_max ∧ p.soc_max ≤ 1 ∧
  0 < p.eta_c ∧ p.eta_c ≤ 1 ∧ 0 < p.eta_d ∧ p.eta_d ≤ 1 ∧
  0 ≤ p.capacity_kwh ∧ 0 ≤ p.p_charge_max_kw ∧ 0 ≤ p.p_discharge_max_kw

/-- Every row of the input series has nonnegative production and
consumption. -/
@[reducible] def NonnegSeries (ts : List (ℚ × ℚ)) : Prop :=
  ∀ r ∈ ts, 0 ≤ r.1 ∧ 0 ≤ r.2

/-- Rounding a raw (import, export) flow list to six decimals, the way the
simulator rounds its own emitted flows. -/
def roundFlows (flows : List (ℚ × ℚ)) : List (ℚ × ℚ) :=
  flows.map fun f => (round6 f.1, round6 f.2)

/-! ### Concrete inputs used by witnesses and counterexamples -/

/-- The Python default configuration
(10.0, 0.10, 0.95, 0.92, 0.92, 5.0, 5.0, None). -/
def pDefault : BatteryParams :=
  { capacity_kwh := 10, soc_min := 1 / 10, soc_max := 19 / 20
  , eta_c := 23 / 25, eta_d := 23 / 25
  , p_charge_max_kw := 5, p_discharge_max_kw := 5, initial_soc_kwh := none }

/-- Default configuration started exactly at `soc_min_kwh` (1.0 kWh), so
the battery has nothing to discharge. -/
def pEmptyBattery : BatteryParams :=
  { pDefault with initial_soc_kwh := some 1 }

/-- Valid configuration whose operational band tops out at 40% of capacity,
below the 50% default initial SoC. -/
def pLowBand : BatteryParams :=
  { pDefault with soc_max := 2 / 5 }

/-- Configuration violating the spec preconditions: `soc_min > soc_max`. -/
def pInvalid : BatteryParams :=
  { pDefault with soc_min := 9 / 10, soc_max := 1 / 10 }

/-- Default configuration with both efficiencies zero. -/
def pEtaZero : BatteryParams :=
  { pDefault with eta_c := 0, eta_d := 0 }

/-- One surplus-only step: production 1 kWh, consumption 0. -/
def tsSurplus : List (ℚ × ℚ) := [(1, 0)]

/-- One deficit step with a tiny deficit of 6e-7 kWh. -/
def tsTinyDeficit : List (ℚ × ℚ) := [(0, 3 / 5000000)]

/-- A series with a negative production value (invalid per the spec). -/
def tsNegative : List (ℚ × ℚ) := [(-1, 2)]

/-- A surplus step followed by a deficit step. -/
def tsTwoRows : List (ℚ × ℚ) := [(2, 1), (0, 3)]

/-- A zero-surplus step (production equals consumption). -/
def tsBalanced : List (ℚ × ℚ) := [(3, 3)]

/-- A full column set including both required columns. -/
def colsFull : List Col := [Col.datetime, Col.production_kwh, Col.consumption_kwh]

/-- A one-step price series at 100 EUR/MWh (0.10 EUR/kWh). -/
def prices100 : List ℚ := [100]

/-- The single output row of `simulate pDefault tsSurplus`. -/
def rowSurplus : StepOut :=
  { production_kwh := 1, consumption_kwh := 0, soc_kwh := 148 / 25
  , charge_kwh := 1, discharge_kwh := 0
  , grid_import_kwh := 0, grid_export_kwh := 0 }

/-- The single output row of `simulate pDefault tsBalanced`. -/
def rowBalanced : StepOut :=
  { production_kwh := 3, consumption_kwh := 3, soc_kwh := 5
  , charge_kwh := 0, discharge_kwh := 0
  , grid_import_kwh := 0, grid_export_kwh := 0 }

/-- The first output row of `simulate pEtaZero tsTwoRows`. -/
def rowEtaSurplus : StepOut :=
  { production_kwh := 2, consumption_kwh := 1, soc_kwh := 5
  , charge_kwh := 0, discharge_kwh := 0
  , grid_import_kwh := 0, grid_export_kwh := 1 }

/-- The second output row of `simulate pEtaZero tsTwoRows`. -/
def rowEtaDeficit : StepOut :=
  { production_kwh := 0, consumption_kwh := 3, soc_kwh := 5
  , charge_kwh := 0, discharge_kwh := 0
  , grid_import_kwh := 3, grid_export_kwh := 0 }

/-! ### Arithmetic lemmas about the emission rounding -/

lemma rhe_ge_floor (x : ℚ) : ⌊x⌋ ≤ rhe x := by
  unfold rhe; split_ifs <;> omega

lemma rhe_le_floor_add_one (x : ℚ) : rhe x ≤ ⌊x⌋ + 1 := by
  unfold rhe; split_ifs <;> omega

lemma rhe_abs_sub_le (x : ℚ) : |(rhe x : ℚ) - x| ≤ 1 / 2 := by
  have h0 : (⌊x⌋ : ℚ) ≤ x := Int.floor_le x
  have h1 : x < ⌊x⌋ + 1 := Int.lt_floor_add_one x
  unfold rhe
  split_ifs with hlt hgt hev <;> rw [abs_le] <;> constructor <;> push_cast <;> linarith

lemma rhe_mono {x y : ℚ} (h : x ≤ y) : rhe x ≤ rhe y := by
  by_cases hf : ⌊x⌋ < ⌊y⌋
  · have h1 := rhe_le_floor_add_one x
    have h2 := rhe_ge_floor y
    omega
  · have hf' : ⌊x⌋ = ⌊y⌋ := le_antisymm (Int.floor_mono h) (not_lt.mp hf)
    unfold rhe
    rw [hf']
    split_ifs <;> first | omega | linarith

lemma round6_abs_sub_le (x : ℚ) : |round6 x - x| ≤ 1 / 2000000 := by
  have h : round6 x - x = ((rhe (x * 1000000) : ℚ) - x * 1000000) / 1000000 := by
    unfold round6; ring
  rw [h, abs_div]
  have h2 := rhe_abs_sub_le (x * 1000000)
  rw [show |(1000000 : ℚ)| = 1000000 by norm_num]
  rw [div_le_iff₀ (by norm_num : (0:ℚ) < 1000000)]
  linarith

lemma round6_mono {x y : ℚ} (h : x ≤ y) : round6 x ≤ round6 y := by
  unfold round6
  apply div_le_div_of_nonneg_right ?_ (by norm_num)
  exact_mod_cast rhe_mono (mul_le_mul_of_nonneg_right h (by norm_num))

lemma round6_zero : round6 0 = 0 := by
  norm_num [round6, rhe]

lemma round6_nonneg {x : ℚ} (h : 0 ≤ x) : 0 ≤ round6 x := by
  have := round6_mono h
  rwa [round6_zero] at this

/-! ### Structural lemmas about the simulation loop -/

lemma clamp_soc_mem (p : BatteryParams) (h : p.soc_min_kwh ≤ p.soc_max_kwh)
    (x : ℚ) :
    p.soc_min_kwh ≤ p.clamp_soc_kwh x ∧ p.clamp_soc_kwh x ≤ p.soc_max_kwh := by
  unfold BatteryParams.clamp_soc_kwh
  exact ⟨le_max_left _ _, max_le h (min_le_left _ _)⟩

lemma valid_soc_min_kwh_le_max (p : BatteryParams) (hv : Valid p) :
    p.soc_min_kwh ≤ p.soc_max_kwh := by
  obtain ⟨h1, h2, h3, h4, h5, h6, h7, h8, h9, h10⟩ := hv
  exact mul_le_mul_of_nonneg_left h2 h8

lemma simGo_forall (p : BatteryParams) (P : StepOut → Prop)
    (hstep : ∀ soc pv load, P (mkRow pv load (simStep p soc pv load))) :
    ∀ soc ts, ∀ r ∈ simGo p soc ts, P r := by
  intro soc ts
  induction ts generalizing soc with
  | nil => intro r hr; simp [simGo] at hr
  | cons head rest ih =>
    intro r hr
    obtain ⟨pv, load⟩ := head
    rw [simGo] at hr
    rcases List.mem_cons.mp hr with h | h
    · rw [h]; exact hstep soc pv load
    · exact ih _ r h

lemma simGo_length (p : BatteryParams) :
    ∀ soc ts, (simGo p soc ts).length = ts.length := by
  intro soc ts
  induction ts generalizing soc with
  | nil => rfl
  | cons head rest ih =>
    obtain ⟨pv, load⟩ := head
    rw [simGo]
    simp [ih]

/-! ### Per-branch facts about one simulation step -/

lemma simStep_pos (p : BatteryParams) (soc pv load : ℚ) (h : 0 ≤ pv - load) :
    simStep p soc pv load =
      { soc_kwh := p.clamp_soc_kwh (soc + chargeStored p soc (pv - load))
      , charge_kwh := chargeDrawn p soc (pv - load)
      , discharge_kwh := 0
      , grid_import_kwh := 0
      , grid_export_kwh := max 0 ((pv - load) - chargeDrawn p soc (pv - load)) } := by
  simp only [simStep]
  rw [if_pos h]

lemma simStep_neg (p : BatteryParams) (soc pv load : ℚ) (h : ¬ 0 ≤ pv - load) :
    simStep p soc pv load =
      { soc_kwh := p.clamp_soc_kwh (soc - spentStored p soc (load - pv))
      , charge_kwh := 0
      , discharge_kwh := dischargeDelivered p soc (load - pv)
      , grid_import_kwh := max 0 ((load - pv) - dischargeDelivered p soc (load - pv))
      , grid_export_kwh := 0 } := by
  simp only [simStep]
  rw [if_neg h]

lemma simStep_soc_clamped (p : BatteryParams) (soc pv load : ℚ) :
    ∃ x, (simStep p soc pv load).soc_kwh = p.clamp_soc_kwh x := by
  by_cases h : 0 ≤ pv - load
  · exact ⟨_, by rw [simStep_pos p soc pv load h]⟩
  · exact ⟨_, by rw [simStep_neg p soc pv load h]⟩

lemma chargeStored_nonneg (p : BatteryParams) (soc surplus : ℚ)
    (hp : 0 ≤ p.p_charge_max_kw) (he : 0 ≤ p.eta_c) (hs : 0 ≤ surplus) :
    0 ≤ chargeStored p soc surplus :=
  le_min (le_max_left 0 _) (mul_nonneg (le_min hs hp) he)

lemma chargeDrawn_nonneg (p : BatteryParams) (soc surplus : ℚ)
    (hp : 0 ≤ p.p_charge_max_kw) (hs : 0 ≤ surplus) :
    0 ≤ chargeDrawn p soc surplus := by
  unfold chargeDrawn
  split_ifs with hc
  · exact div_nonneg (chargeStored_nonneg p soc surplus hp hc.le hs) hc.le
  · exact le_refl 0

lemma chargeDrawn_le_surplus (p : BatteryParams) (soc surplus : ℚ)
    (hc : 0 < p.eta_c) (hs : 0 ≤ surplus) :
    chargeDrawn p soc surplus ≤ surplus := by
  unfold chargeDrawn
  rw [if_pos hc, div_le_iff₀ hc]
  calc chargeStored p soc surplus ≤ min surplus p.p_charge_max_kw * p.eta_c :=
        min_le_right _ _
    _ ≤ surplus * p.eta_c := mul_le_mul_of_nonneg_right (min_le_left _ _) hc.le

lemma chargeDrawn_zero_of_eta_zero (p : BatteryParams) (soc surplus : ℚ)
    (hc : p.eta_c = 0) : chargeDrawn p soc surplus = 0 := by
  unfold chargeDrawn
  rw [if_neg (by rw [hc]; exact lt_irrefl 0)]

lemma dischargeDelivered_le_need (p : BatteryParams) (soc need : ℚ) :
    dischargeDelivered p soc need ≤ need :=
  min_le_left _ _

lemma dischargeDelivered_nonneg (p : BatteryParams) (soc need : ℚ)
    (hp : 0 ≤ p.p_discharge_max_kw) (he : 0 ≤ p.eta_d) (hn : 0 ≤ need) :
    0 ≤ dischargeDelivered p soc need :=
  le_min hn (mul_nonneg (le_min (le_max_left 0 _) hp) he)

lemma dischargeDelivered_zero_of_eta_zero (p : BatteryParams) (soc need : ℚ)
    (hn : 0 ≤ need) (hd : p.eta_d = 0) : dischargeDelivered p soc need = 0 := by
  unfold dischargeDelivered
  rw [hd, mul_zero]
  exact min_eq_right hn

/-! ### Projection lemmas for emitted rows -/

@[simp] lemma mkRow_production (pv load : ℚ) (s : StepFlows) :
    (mkRow pv load s).production_kwh = pv := rfl

@[simp] lemma mkRow_consumption (pv load : ℚ) (s : StepFlows) :
    (mkRow pv load s).consumption_kwh = load := rfl

@[simp] lemma mkRow_soc (pv load : ℚ) (s : StepFlows) :
    (mkRow pv load s).soc_kwh = s.soc_kwh := rfl

@[simp] lemma mkRow_charge (pv load : ℚ) (s : StepFlows) :
    (mkRow pv load s).charge_kwh = round6 s.charge_kwh := rfl

@[simp] lemma mkRow_discharge (pv load : ℚ) (s : StepFlows) :
    (mkRow pv load s).discharge_kwh = round6 s.discharge_kwh := rfl

@[simp] lemma mkRow_grid_import (pv load : ℚ) (s : StepFlows) :
    (mkRow pv load s).grid_import_kwh = round6 s.grid_import_kwh := rfl

@[simp] lemma mkRow_grid_export (pv load : ℚ) (s : StepFlows) :
    (mkRow pv load s).grid_export_kwh = round6 s.grid_export_kwh := rfl

/-- Two emission roundings together move an expression by at most 1e-6. -/
lemma abs_two_round_bound (a b : ℚ) :
    |(a - round6 a) + (b - round6 b)| ≤ 1 / 1000000 := by
  have e1 := round6_abs_sub_le a
  have e2 := round6_abs_sub_le b
  rw [abs_sub_comm] at e1 e2
  calc |(a - round6 a) + (b - round6 b)| ≤ |a - round6 a| + |b - round6 b| :=
        abs_add _ _
    _ ≤ 1 / 2000000 + 1 / 2000000 := add_le_add e1 e2
    _ = 1 / 1000000 := by norm_num

lemma chargeStored_zero_surplus (p : BatteryParams) (soc : ℚ)
    (hp : 0 ≤ p.p_charge_max_kw) : chargeStored p soc 0 = 0 := by
  unfold chargeStored
  rw [min_eq_left hp, zero_mul]
  exact min_eq_right (le_max_left 0 _)

lemma chargeDrawn_zero_surplus (p : BatteryParams) (soc : ℚ)
    (hp : 0 ≤ p.p_charge_max_kw) : chargeDrawn p soc 0 = 0 := by
  unfold chargeDrawn
  split_ifs with hc
  · rw [chargeStored_zero_surplus p soc hp, zero_div]
  · rfl

lemma step_import_le_rounded_baseline (p : BatteryParams)
    (hd : 0 < p.eta_d) (hpd : 0 ≤ p.p_discharge_max_kw) (soc pv load : ℚ) :
    (mkRow pv load (simStep p soc pv load)).grid_import_kwh ≤
      round6 (max 0 (load - pv)) := by
  rw [mkRow_grid_import]
  by_cases h : 0 ≤ pv - load
  · rw [simStep_pos p soc pv load h]
    dsimp only
    rw [round6_zero]
    exact round6_nonneg (le_max_left 0 _)
  · rw [simStep_neg p soc pv load h]
    dsimp only
    apply round6_mono
    have hn : (0 : ℚ) ≤ load - pv := by
      have := not_le.mp h
      linarith
    have hdis := dischargeDelivered_nonneg p soc (load - pv) hpd hd.le hn
    rw [max_eq_right hn]
    exact max_le hn (by linarith [dischargeDelivered_le_need p soc (load - pv)])

lemma simGo_map_emit (p : BatteryParams) :
    ∀ soc ts, simGo p soc ts = (simGoExact p soc ts).map emitRow := by
  intro soc ts
  induction ts generalizing soc with
  | nil => rfl
  | cons head rest ih =>
    obtain ⟨pv, load⟩ := head
    rw [simGo, simGoExact, List.map_cons, ih]
    rfl

lemma totalNetCost_nil (prices : List ℚ) (mode : ExportMode) (tariff : ℚ) :
    totalNetCost [] prices mode tariff = 0 := by
  simp [totalNetCost, compute_costs]

lemma totalNetCost_nil_prices (sim : List StepOut) (mode : ExportMode)
    (tariff : ℚ) : totalNetCost sim [] mode tariff = 0 := by
  simp [totalNetCost, compute_costs]

lemma totalNetCost_cons (r : StepOut) (rs : List StepOut) (q : ℚ)
    (qs : List ℚ) (mode : ExportMode) (tariff : ℚ) :
    totalNetCost (r :: rs) (q :: qs) mode tariff =
      (r.grid_import_kwh * (q / 1000) -
        exportRevenue mode tariff q r.grid_export_kwh) +
        totalNetCost rs qs mode tariff := by
  simp [totalNetCost, compute_costs, List.zip_cons_cons]

lemma flowsNetCost_nil_prices (flows : List (ℚ × ℚ)) (mode : ExportMode)
    (tariff : ℚ) : flowsNetCost flows [] mode tariff = 0 := by
  simp [flowsNetCost]

lemma flowsNetCost_cons (f : ℚ × ℚ) (fs : List (ℚ × ℚ)) (q : ℚ)
    (qs : List ℚ) (mode : ExportMode) (tariff : ℚ) :
    flowsNetCost (f :: fs) (q :: qs) mode tariff =
      (f.1 * (q / 1000) - exportRevenue mode tariff q f.2) +
        flowsNetCost fs qs mode tariff := by
  simp [flowsNetCost, List.zip_cons_cons]

lemma simGo_cost_le (p : BatteryParams) (hd : 0 < p.eta_d)
    (hpd : 0 ≤ p.p_discharge_max_kw) :
    ∀ ts prices soc, (∀ q ∈ prices, 0 ≤ q) →
      totalNetCost (simGo p soc ts) prices ExportMode.feed_in 0 ≤
        flowsNetCost (roundFlows (specBaselineFlows ts)) prices
          ExportMode.feed_in 0 := by
  intro ts
  induction ts with
  | nil =>
    intro prices soc hpr
    rw [show simGo p soc [] = [] from rfl, totalNetCost_nil]
    rw [show roundFlows (specBaselineFlows []) = [] from rfl]
    rw [show flowsNetCost [] prices ExportMode.feed_in 0 = 0 by
      simp [flowsNetCost]]
  | cons head rest ih =>
    intro prices soc hpr
    obtain ⟨pv, load⟩ := head
    cases prices with
    | nil =>
      rw [totalNetCost_nil_prices, flowsNetCost_nil_prices]
    | cons q qs =>
      have hq : 0 ≤ q := hpr q (List.mem_cons_self _ _)
      have hqs : ∀ x ∈ qs, 0 ≤ x := fun x hx => hpr x (List.mem_cons_of_mem _ hx)
      rw [simGo, totalNetCost_cons]
      rw [show specBaselineFlows ((pv, load) :: rest) =
        (max 0 (load - pv), max 0 (pv - load)) :: specBaselineFlows rest from rfl]
      rw [show roundFlows ((max 0 (load - pv), max 0 (pv - load)) ::
        specBaselineFlows rest) =
        (round6 (max 0 (load - pv)), round6 (max 0 (pv - load))) ::
          roundFlows (specBaselineFlows rest) from rfl]
      rw [flowsNetCost_cons]
      apply add_le_add
      · simp only [exportRevenue, mul_zero, sub_zero]
        apply mul_le_mul_of_nonneg_right ?_ (div_nonneg hq (by norm_num))
        exact step_import_le_rounded_baseline p hd hpd soc pv load
      · exact ih qs _ hqs

/-! ### Claim theorems -/

/-- C1: for every configuration satisfying the spec preconditions and every
finite nonnegative input series, every emitted `soc_kwh` value lies in
`[capacity_kwh * soc_min, capacity_kwh * soc_max]` inclusive. -/
theorem soc_within_bounds (p : BatteryParams) (hv : Valid p)
    (ts : List (ℚ × ℚ)) (hts : NonnegSeries ts) :
    ∀ r ∈ simulate p ts,
      p.soc_min_kwh ≤ r.soc_kwh ∧ r.soc_kwh ≤ p.soc_max_kwh := by
  have hmm := valid_soc_min_kwh_le_max p hv
  unfold simulate
  refine simGo_forall p _ ?_ p.initial_soc ts
  intro soc pv load
  rw [mkRow_soc]
  obtain ⟨x, hx⟩ := simStep_soc_clamped p soc pv load
  rw [hx]
  exact clamp_soc_mem p hmm x

/-- Witness for C1 at the default configuration on a one-step series. -/
theorem soc_within_bounds_witness :
    pDefault.soc_min_kwh ≤ rowSurplus.soc_kwh ∧
      rowSurplus.soc_kwh ≤ pDefault.soc_max_kwh :=
  soc_within_bounds pDefault (by norm_num [Valid, pDefault]) tsSurplus
    (by norm_num [NonnegSeries, tsSurplus]) rowSurplus
    (by norm_num [simulate, simGo, simStep, mkRow, chargeStored, chargeDrawn,
      dischargeDelivered, spentStored, BatteryParams.initial_soc,
      BatteryParams.clamp_soc_kwh, BatteryParams.soc_min_kwh,
      BatteryParams.soc_max_kwh, round6, rhe, max_def, min_def,
      pDefault, tsSurplus, rowSurplus])

/-- C2: for every valid configuration and nonnegative input series, every
emitted row satisfies the per-step energy balance within 1e-6. -/
theorem energy_balance_per_step (p : BatteryParams) (hv : Valid p)
    (ts : List (ℚ × ℚ)) (hts : NonnegSeries ts) :
    ∀ r ∈ simulate p ts,
      |r.production_kwh + r.discharge_kwh + r.grid_import_kwh -
          (r.consumption_kwh + r.charge_kwh + r.grid_export_kwh)| ≤
        1 / 1000000 := by
  obtain ⟨h1, h2, h3, hc, h5, hd, h7, h8, h9, h10⟩ := hv
  unfold simulate
  refine simGo_forall p _ ?_ p.initial_soc ts
  intro soc pv load
  by_cases h : 0 ≤ pv - load
  · rw [simStep_pos p soc pv load h]
    simp only [mkRow_production, mkRow_consumption, mkRow_charge,
      mkRow_discharge, mkRow_grid_import, mkRow_grid_export]
    rw [round6_zero]
    have hle : chargeDrawn p soc (pv - load) ≤ pv - load :=
      chargeDrawn_le_surplus p soc (pv - load) hc h
    rw [max_eq_right
      (by linarith : (0:ℚ) ≤ (pv - load) - chargeDrawn p soc (pv - load))]
    have heq : pv + 0 + 0 -
        (load + round6 (chargeDrawn p soc (pv - load)) +
          round6 ((pv - load) - chargeDrawn p soc (pv - load))) =
        (chargeDrawn p soc (pv - load) -
            round6 (chargeDrawn p soc (pv - load))) +
          (((pv - load) - chargeDrawn p soc (pv - load)) -
            round6 ((pv - load) - chargeDrawn p soc (pv - load))) := by ring
    rw [heq]
    exact abs_two_round_bound _ _
  · rw [simStep_neg p soc pv load h]
    simp only [mkRow_production, mkRow_consumption, mkRow_charge,
      mkRow_discharge, mkRow_grid_import, mkRow_grid_export]
    rw [round6_zero]
    have hle : dischargeDelivered p soc (load - pv) ≤ load - pv :=
      dischargeDelivered_le_need p soc (load - pv)
    rw [max_eq_right
      (by linarith : (0:ℚ) ≤ (load - pv) - dischargeDelivered p soc (load - pv))]
    have heq : pv + round6 (dischargeDelivered p soc (load - pv)) +
        round6 ((load - pv) - dischargeDelivered p soc (load - pv)) -
          (load + 0 + 0) =
        -((dischargeDelivered p soc (load - pv) -
            round6 (dischargeDelivered p soc (load - pv))) +
          (((load - pv) - dischargeDelivered p soc (load - pv)) -
            round6 ((load - pv) - dischargeDelivered p soc (load - pv)))) := by
      ring
    rw [heq, abs_neg]
    exact abs_two_round_bound _ _

/-- Witness for C2 at the default configuration on a one-step series. -/
theorem energy_balance_per_step_witness :
    |rowSurplus.production_kwh + rowSurplus.discharge_kwh +
        rowSurplus.grid_import_kwh -
        (rowSurplus.consumption_kwh + rowSurplus.charge_kwh +
          rowSurplus.grid_export_kwh)| ≤ 1 / 1000000 :=
  energy_balance_per_step pDefault (by norm_num [Valid, pDefault]) tsSurplus
    (by norm_num [NonnegSeries, tsSurplus]) rowSurplus
    (by norm_num [simulate, simGo, simStep, mkRow, chargeStored, chargeDrawn,
      dischargeDelivered, spentStored, BatteryParams.initial_soc,
      BatteryParams.clamp_soc_kwh, BatteryParams.soc_min_kwh,
      BatteryParams.soc_max_kwh, round6, rhe, max_def, min_def,
      pDefault, tsSurplus, rowSurplus])

/-- C6: in every emitted row, charge and discharge are never both positive. -/
theorem charge_discharge_exclusive (p : BatteryParams) (hv : Valid p)
    (ts : List (ℚ × ℚ)) (hts : NonnegSeries ts) :
    ∀ r ∈ simulate p ts,
      (0 < r.charge_kwh → r.discharge_kwh = 0) ∧
        (0 < r.discharge_kwh → r.charge_kwh = 0) := by
  unfold simulate
  refine simGo_forall p _ ?_ p.initial_soc ts
  intro soc pv load
  by_cases h : 0 ≤ pv - load
  · rw [simStep_pos p soc pv load h]
    simp only [mkRow_charge, mkRow_discharge]
    rw [round6_zero]
    exact ⟨fun _ => rfl, fun hpos => absurd hpos (lt_irrefl 0)⟩
  · rw [simStep_neg p soc pv load h]
    simp only [mkRow_charge, mkRow_discharge]
    rw [round6_zero]
    exact ⟨fun hpos => absurd hpos (lt_irrefl 0), fun _ => rfl⟩

/-- Witness for C6 at the default configuration on a one-step series. -/
theorem charge_discharge_exclusive_witness :
    (0 < rowSurplus.charge_kwh → rowSurplus.discharge_kwh = 0) ∧
      (0 < rowSurplus.discharge_kwh → rowSurplus.charge_kwh = 0) :=
  charge_discharge_exclusive pDefault (by norm_num [Valid, pDefault])
    tsSurplus (by norm_num [NonnegSeries, tsSurplus]) rowSurplus
    (by norm_num [simulate, simGo, simStep, mkRow, chargeStored, chargeDrawn,
      dischargeDelivered, spentStored, BatteryParams.initial_soc,
      BatteryParams.clamp_soc_kwh, BatteryParams.soc_min_kwh,
      BatteryParams.soc_max_kwh, round6, rhe, max_def, min_def,
      pDefault, tsSurplus, rowSurplus])

/-- C9: a step whose production equals its consumption takes the surplus
branch and emits four zero flows. -/
theorem zero_surplus_idle (p : BatteryParams) (hv : Valid p)
    (ts : List (ℚ × ℚ)) (hts : NonnegSeries ts) :
    ∀ r ∈ simulate p ts, r.production_kwh = r.consumption_kwh →
      r.charge_kwh = 0 ∧ r.discharge_kwh = 0 ∧
        r.grid_import_kwh = 0 ∧ r.grid_export_kwh = 0 := by
  obtain ⟨h1, h2, h3, hc, h5, hd, h7, h8, hp, h10⟩ := hv
  unfold simulate
  refine simGo_forall p _ ?_ p.initial_soc ts
  intro soc pv load
  simp only [mkRow_production, mkRow_consumption, mkRow_charge,
    mkRow_discharge, mkRow_grid_import, mkRow_grid_export]
  intro heq
  have h : 0 ≤ pv - load := by rw [heq]; simp
  rw [simStep_pos p soc pv load h]
  have h0 : pv - load = 0 := by rw [heq]; exact sub_self load
  rw [h0, chargeDrawn_zero_surplus p soc hp]
  norm_num [round6_zero]

/-- Witness for C9 at the default configuration on a balanced step. -/
theorem zero_surplus_idle_witness :
    rowBalanced.charge_kwh = 0 ∧ rowBalanced.discharge_kwh = 0 ∧
      rowBalanced.grid_import_kwh = 0 ∧ rowBalanced.grid_export_kwh = 0 :=
  zero_surplus_idle pDefault (by norm_num [Valid, pDefault]) tsBalanced
    (by norm_num [NonnegSeries, tsBalanced]) rowBalanced
    (by norm_num [simulate, simGo, simStep, mkRow, chargeStored, chargeDrawn,
      dischargeDelivered, spentStored, BatteryParams.initial_soc,
      BatteryParams.clamp_soc_kwh, BatteryParams.soc_min_kwh,
      BatteryParams.soc_max_kwh, round6, rhe, max_def, min_def,
      pDefault, tsBalanced, rowBalanced]) rfl

/-- C7: zero efficiency never divides by zero; the guarded flow is zero and
the full surplus (resp. need) goes to the grid. -/
theorem zero_efficiency_guarded (p : BatteryParams) (ts : List (ℚ × ℚ)) :
    ∀ r ∈ simulate p ts,
      (p.eta_c = 0 → r.consumption_kwh ≤ r.production_kwh →
        r.charge_kwh = 0 ∧
          r.grid_export_kwh = round6 (r.production_kwh - r.consumption_kwh)) ∧
      (p.eta_d = 0 → r.production_kwh < r.consumption_kwh →
        r.discharge_kwh = 0 ∧
          r.grid_import_kwh = round6 (r.consumption_kwh - r.production_kwh)) := by
  unfold simulate
  refine simGo_forall p _ ?_ p.initial_soc ts
  intro soc pv load
  simp only [mkRow_production, mkRow_consumption, mkRow_charge,
    mkRow_discharge, mkRow_grid_import, mkRow_grid_export]
  constructor
  · intro hc hle
    have h : 0 ≤ pv - load := sub_nonneg.mpr hle
    rw [simStep_pos p soc pv load h]
    rw [chargeDrawn_zero_of_eta_zero p soc (pv - load) hc]
    exact ⟨round6_zero, by rw [sub_zero, max_eq_right h]⟩
  · intro hd hlt
    have h : ¬ 0 ≤ pv - load := not_le.mpr (by linarith)
    rw [simStep_neg p soc pv load h]
    have hn : (0:ℚ) ≤ load - pv := by linarith
    rw [dischargeDelivered_zero_of_eta_zero p soc (load - pv) hn hd]
    exact ⟨round6_zero, by rw [sub_zero, max_eq_right hn]⟩

/-- Witness for C7: with both efficiencies zero, a surplus step exports the
full surplus with zero charge, and a deficit step imports the full need
with zero discharge. -/
theorem zero_efficiency_guarded_witness :
    (rowEtaSurplus.charge_kwh = 0 ∧
      rowEtaSurplus.grid_export_kwh =
        round6 (rowEtaSurplus.production_kwh - rowEtaSurplus.consumption_kwh)) ∧
      (rowEtaDeficit.discharge_kwh = 0 ∧
        rowEtaDeficit.grid_import_kwh =
          round6 (rowEtaDeficit.consumption_kwh - rowEtaDeficit.production_kwh)) :=
  ⟨(zero_efficiency_guarded pEtaZero tsTwoRows rowEtaSurplus
      (by norm_num [simulate, simGo, simStep, mkRow, chargeStored, chargeDrawn,
        dischargeDelivered, spentStored, BatteryParams.initial_soc,
        BatteryParams.clamp_soc_kwh, BatteryParams.soc_min_kwh,
        BatteryParams.soc_max_kwh, round6, rhe, max_def, min_def,
        pEtaZero, pDefault, tsTwoRows, rowEtaSurplus])).1 rfl
      (by norm_num [rowEtaSurplus]),
   (zero_efficiency_guarded pEtaZero tsTwoRows rowEtaDeficit
      (by norm_num [simulate, simGo, simStep, mkRow, chargeStored, chargeDrawn,
        dischargeDelivered, spentStored, BatteryParams.initial_soc,
        BatteryParams.clamp_soc_kwh, BatteryParams.soc_min_kwh,
        BatteryParams.soc_max_kwh, round6, rhe, max_def, min_def,
        pEtaZero, pDefault, tsTwoRows, rowEtaDeficit])).2 rfl
      (by norm_num [rowEtaDeficit])⟩

/-- C8 (amended): each emitted `grid_import_kwh` is at most the no-battery
baseline import of the same step rounded to six decimals (the emission
rounding applied to the simulator's flows). -/
theorem grid_import_le_rounded_baseline (p : BatteryParams) (hv : Valid p)
    (ts : List (ℚ × ℚ)) (hts : NonnegSeries ts) :
    ∀ r ∈ simulate p ts,
      r.grid_import_kwh ≤
        round6 (max 0 (r.consumption_kwh - r.production_kwh)) := by
  obtain ⟨h1, h2, h3, hc, h5, hd, h7, h8, h9, hpd⟩ := hv
  unfold simulate
  refine simGo_forall p _ ?_ p.initial_soc ts
  intro soc pv load
  simpa only [mkRow_production, mkRow_consumption] using
    step_import_le_rounded_baseline p hd hpd soc pv load

/-- Witness for the amended C8 at the default configuration. -/
theorem grid_import_le_rounded_baseline_witness :
    rowSurplus.grid_import_kwh ≤
      round6 (max 0 (rowSurplus.consumption_kwh - rowSurplus.production_kwh)) :=
  grid_import_le_rounded_baseline pDefault (by norm_num [Valid, pDefault])
    tsSurplus (by norm_num [NonnegSeries, tsSurplus]) rowSurplus
    (by norm_num [simulate, simGo, simStep, mkRow, chargeStored, chargeDrawn,
      dischargeDelivered, spentStored, BatteryParams.initial_soc,
      BatteryParams.clamp_soc_kwh, BatteryParams.soc_min_kwh,
      BatteryParams.soc_max_kwh, round6, rhe, max_def, min_def,
      pDefault, tsSurplus, rowSurplus])

/-- C8 counterexample: with a valid configuration whose battery sits at
`soc_min_kwh` and a tiny deficit of 6e-7 kWh, the emitted (rounded)
`grid_import_kwh` is 1e-6, strictly above the exact no-battery
baseline import 6e-7 of that step. -/
theorem grid_import_exceeds_baseline_counterexample :
    Valid pEmptyBattery ∧ NonnegSeries tsTinyDeficit ∧
      simulate pEmptyBattery tsTinyDeficit =
        [{ production_kwh := 0, consumption_kwh := 3 / 5000000, soc_kwh := 1
         , charge_kwh := 0, discharge_kwh := 0
         , grid_import_kwh := 1 / 1000000, grid_export_kwh := 0 }] ∧
      max 0 ((3 / 5000000 : ℚ) - 0) = 3 / 5000000 ∧
      ¬ ((1 / 1000000 : ℚ) ≤ 3 / 5000000) := by
  refine ⟨by norm_num [Valid, pEmptyBattery, pDefault],
    by norm_num [NonnegSeries, tsTinyDeficit], ?_, by norm_num, by norm_num⟩
  norm_num [simulate, simGo, simStep, mkRow, chargeStored, chargeDrawn,
    dischargeDelivered, spentStored, BatteryParams.initial_soc,
    BatteryParams.clamp_soc_kwh, BatteryParams.soc_min_kwh,
    BatteryParams.soc_max_kwh, round6, rhe, max_def, min_def,
    pEmptyBattery, pDefault, tsTinyDeficit]

/-- C10: the emitted frame is exactly the exact-flow frame with each of the
four flow columns rounded to six decimals (`soc_kwh` unrounded, only
clamped), and one rounding moves a value by at most 5e-7. -/
theorem emitted_flows_rounded (p : BatteryParams) (ts : List (ℚ × ℚ))
    (q : ℚ) :
    simulate p ts = (simulateExact p ts).map emitRow ∧
      |round6 q - q| ≤ 1 / 2000000 :=
  ⟨simGo_map_emit p p.initial_soc ts, round6_abs_sub_le q⟩

/-- C3 counterexample: `simulate` on a configuration violating the spec
preconditions (`soc_min = 0.9 > soc_max = 0.1`) and a series with a
negative production value returns full results (one output row per input
row, with computed values) instead of failing before simulation. No
`ConfigurationError` or `InputValidationError` exists in the codebase. -/
theorem no_failfast_validation_counterexample :
    pInvalid.soc_max < pInvalid.soc_min ∧
      tsNegative = [(-1, 2)] ∧
      simulateDF pInvalid colsFull tsNegative =
        Except.ok (simulate pInvalid tsNegative) ∧
      (simulate pInvalid tsNegative).length = 1 ∧
      simulate pInvalid tsNegative =
        [{ production_kwh := -1, consumption_kwh := 2, soc_kwh := 9
         , charge_kwh := 0, discharge_kwh := 0
         , grid_import_kwh := 3, grid_export_kwh := 0 }] := by
  refine ⟨by norm_num [pInvalid, pDefault], rfl, rfl, rfl, ?_⟩
  norm_num [simulate, simGo, simStep, mkRow, chargeStored, chargeDrawn,
    dischargeDelivered, spentStored, BatteryParams.initial_soc,
    BatteryParams.clamp_soc_kwh, BatteryParams.soc_min_kwh,
    BatteryParams.soc_max_kwh, round6, rhe, max_def, min_def,
    pInvalid, pDefault, tsNegative]

/-- C3 (amended): `simulate` performs no configuration or value validation;
whenever the required columns are present (its only fail-fast check, a
`ValueError` otherwise), every call — with any configuration, valid or not,
and any series values — succeeds and returns one output row per input row. -/
theorem simulate_accepts_all_inputs (p : BatteryParams) (cols : List Col)
    (ts : List (ℚ × ℚ)) (h : hasRequiredCols cols = true) :
    simulateDF p cols ts = Except.ok (simulate p ts) ∧
      (simulate p ts).length = ts.length := by
  constructor
  · unfold simulateDF
    rw [if_pos h]
  · exact simGo_length p p.initial_soc ts

/-- Witness for the amended C3: even the invalid configuration is accepted
in full. -/
theorem simulate_accepts_all_inputs_witness :
    simulateDF pInvalid colsFull tsTwoRows =
        Except.ok (simulate pInvalid tsTwoRows) ∧
      (simulate pInvalid tsTwoRows).length = 2 := by
  have h := simulate_accepts_all_inputs pInvalid colsFull tsTwoRows rfl
  exact ⟨h.1, h.2.trans rfl⟩

/-- C4 counterexample: default battery, one step producing 1 kWh with no
consumption, market price 100 EUR/MWh, feed-in tariff 0.08 EUR/kWh
(at or below the 0.10 EUR/kWh market price). The simulator charges the
whole surplus, so the optimized cost is 0 while the no-battery baseline
earns 0.08 EUR of export revenue: optimized cost exceeds baseline cost. -/
theorem baseline_dominance_counterexample :
    Valid pDefault ∧ NonnegSeries tsSurplus ∧
      (2 / 25 : ℚ) ≤ 100 / 1000 ∧
      totalNetCost (simulate pDefault tsSurplus) prices100
          ExportMode.feed_in (2 / 25) = 0 ∧
      flowsNetCost (specBaselineFlows tsSurplus) prices100
          ExportMode.feed_in (2 / 25) = -(2 / 25) ∧
      ¬ totalNetCost (simulate pDefault tsSurplus) prices100
            ExportMode.feed_in (2 / 25) ≤
          flowsNetCost (specBaselineFlows tsSurplus) prices100
            ExportMode.feed_in (2 / 25) := by
  have h1 : totalNetCost (simulate pDefault tsSurplus) prices100
      ExportMode.feed_in (2 / 25) = 0 := by
    norm_num [totalNetCost, compute_costs, exportRevenue, simulate, simGo,
      simStep, mkRow, chargeStored, chargeDrawn, dischargeDelivered,
      spentStored, BatteryParams.initial_soc, BatteryParams.clamp_soc_kwh,
      BatteryParams.soc_min_kwh, BatteryParams.soc_max_kwh, round6, rhe,
      max_def, min_def, pDefault, tsSurplus, prices100, List.zip_cons_cons]
  have h2 : flowsNetCost (specBaselineFlows tsSurplus) prices100
      ExportMode.feed_in (2 / 25) = -(2 / 25) := by
    norm_num [flowsNetCost, specBaselineFlows, exportRevenue, tsSurplus,
      prices100, List.zip_cons_cons, max_def]
  refine ⟨by norm_num [Valid, pDefault],
    by norm_num [NonnegSeries, tsSurplus], by norm_num, h1, h2, ?_⟩
  rw [h1, h2]
  norm_num

/-- C4 (amended): with the battery enabled under a feed-in policy whose
tariff is 0 (exports uncredited) and nonnegative market prices, the
optimized total cost of the simulator's emitted flows is at most the
baseline total cost of the no-battery flows, once the baseline flows are
rounded to six decimals exactly as the simulator rounds its emissions. -/
theorem baseline_dominance_zero_tariff (p : BatteryParams) (hv : Valid p)
    (ts : List (ℚ × ℚ)) (prices : List ℚ) (hpr : ∀ q ∈ prices, 0 ≤ q) :
    totalNetCost (simulate p ts) prices ExportMode.feed_in 0 ≤
      flowsNetCost (roundFlows (specBaselineFlows ts)) prices
        ExportMode.feed_in 0 := by
  obtain ⟨h1, h2, h3, hc, h5, hd, h7, h8, h9, hpd⟩ := hv
  unfold simulate
  exact simGo_cost_le p hd hpd ts prices p.initial_soc hpr

/-- Witness for the amended C4 at the default configuration. -/
theorem baseline_dominance_zero_tariff_witness :
    totalNetCost (simulate pDefault tsSurplus) prices100
        ExportMode.feed_in 0 ≤
      flowsNetCost (roundFlows (specBaselineFlows tsSurplus)) prices100
        ExportMode.feed_in 0 :=
  baseline_dominance_zero_tariff pDefault (by norm_num [Valid, pDefault])
    tsSurplus prices100 (by norm_num [prices100])

/-- C5 (code evaluation at the failing input): for the valid configuration
with `soc_max = 0.4` and `initial_soc_kwh` unset, `initial_soc()` returns
the unclamped default 5.0 (50% of capacity), not the in-band value 4.0 the
claim (and the comment above `soc = params.initial_soc()` in `simulate`)
prescribe; `simulate` starts from that unclamped 5.0. -/
theorem initial_soc_default_unclamped :
    Valid pLowBand ∧ pLowBand.initial_soc_kwh = none ∧
      pLowBand.initial_soc = 5 ∧
      pLowBand.clamp_soc_kwh (pLowBand.capacity_kwh * (1 / 2)) = 4 ∧
      pLowBand.initial_soc ≠
        pLowBand.clamp_soc_kwh (pLowBand.capacity_kwh * (1 / 2)) ∧
      simulate pLowBand tsSurplus = simGo pLowBand 5 tsSurplus := by
  have h3 : pLowBand.initial_soc = 5 := by
    norm_num [pLowBand, pDefault, BatteryParams.initial_soc]
  have h4 : pLowBand.clamp_soc_kwh (pLowBand.capacity_kwh * (1 / 2)) = 4 := by
    norm_num [pLowBand, pDefault, BatteryParams.clamp_soc_kwh,
      BatteryParams.soc_min_kwh, BatteryParams.soc_max_kwh, max_def, min_def]
  refine ⟨by norm_num [Valid, pLowBand, pDefault], rfl, h3, h4, ?_, ?_⟩
  · rw [h3, h4]
    norm_num
  · unfold simulate
    rw [h3]
